import Mathlib

/-!
Verification of the vulkano `StorageImage` subsystem (src/vulkano/src/image/storage.rs).

The Rust code is shallowly embedded: bitsets become structures of Booleans,
machine integers become `Nat`, fallible operations return explicit outcome
values, and the external collaborators (device, memory allocator, binding
machinery) are passed in as an explicit environment of functions.  Calls to
the collaborators are recorded in an event trace so that claims about "the
allocator is never called" or "the allocation is released before the error
is returned" become statements about the trace.
-/

namespace Vulkano

/-- Aspect bitset of a format (`ImageAspects`); only the bits used by
`storage.rs` are modelled. -/
structure ImageAspects where
  color : Bool
  depth : Bool
  stencil : Bool
deriving DecidableEq, Repr

def ImageAspects.union (a b : ImageAspects) : ImageAspects :=
  ⟨a.color || b.color, a.depth || b.depth, a.stencil || b.stencil⟩

def ImageAspects.intersects (a b : ImageAspects) : Bool :=
  (a.color && b.color) || (a.depth && b.depth) || (a.stencil && b.stencil)

def ImageAspects.DEPTH : ImageAspects := ⟨false, true, false⟩

def ImageAspects.STENCIL : ImageAspects := ⟨false, false, true⟩

/-- Usage bitset (`ImageUsage`): fields are, in order, transfer_src,
transfer_dst, sampled, storage_bit, color_attachment,
depth_stencil_attachment, input_attachment. -/
structure ImageUsage where
  transfer_src : Bool
  transfer_dst : Bool
  sampled : Bool
  storage_bit : Bool
  color_attachment : Bool
  depth_stencil_attachment : Bool
  input_attachment : Bool
deriving DecidableEq, Repr

def ImageUsage.union (a b : ImageUsage) : ImageUsage :=
  ⟨a.transfer_src || b.transfer_src, a.transfer_dst || b.transfer_dst,
    a.sampled || b.sampled, a.storage_bit || b.storage_bit,
    a.color_attachment || b.color_attachment,
    a.depth_stencil_attachment || b.depth_stencil_attachment,
    a.input_attachment || b.input_attachment⟩

def ImageUsage.TRANSFER_SRC : ImageUsage := ⟨true, false, false, false, false, false, false⟩

def ImageUsage.TRANSFER_DST : ImageUsage := ⟨false, true, false, false, false, false, false⟩

def ImageUsage.SAMPLED : ImageUsage := ⟨false, false, true, false, false, false, false⟩

def ImageUsage.STORAGE : ImageUsage := ⟨false, false, false, true, false, false, false⟩

def ImageUsage.COLOR_ATTACHMENT : ImageUsage := ⟨false, false, false, false, true, false, false⟩

def ImageUsage.DEPTH_STENCIL_ATTACHMENT : ImageUsage :=
  ⟨false, false, false, false, false, true, false⟩

def ImageUsage.INPUT_ATTACHMENT : ImageUsage := ⟨false, false, false, false, false, false, true⟩

/-- `a` contains every usage bit of `b`. -/
def ImageUsage.isSupersetOf (a b : ImageUsage) : Bool :=
  (!b.transfer_src || a.transfer_src) && (!b.transfer_dst || a.transfer_dst) &&
  (!b.sampled || a.sampled) && (!b.storage_bit || a.storage_bit) &&
  (!b.color_attachment || a.color_attachment) &&
  (!b.depth_stencil_attachment || a.depth_stencil_attachment) &&
  (!b.input_attachment || a.input_attachment)

/-- Creation-flag bitset (`ImageCreateFlags`); only the bits used by
`storage.rs` are modelled (fields: mutable_format, cube_compatible,
array_2d_compatible, disjoint). -/
structure ImageCreateFlags where
  mutable_format : Bool
  cube_compatible : Bool
  array_2d_compatible : Bool
  disjoint : Bool
deriving DecidableEq, Repr

def ImageCreateFlags.empty : ImageCreateFlags := ⟨false, false, false, false⟩

def ImageCreateFlags.DISJOINT : ImageCreateFlags := ⟨false, false, false, true⟩

def ImageCreateFlags.intersects (a b : ImageCreateFlags) : Bool :=
  (a.mutable_format && b.mutable_format) || (a.cube_compatible && b.cube_compatible) ||
  (a.array_2d_compatible && b.array_2d_compatible) || (a.disjoint && b.disjoint)

/-- Block-compression families of `Format::compression()`. -/
inductive CompressionKind
  | BC
  | ETC2
  | EAC
  | ASTC_LDR
  | ASTC_HDR
  | PVRTC
deriving DecidableEq, Repr

/-- A pixel format, exposed through the two accessors `storage.rs` uses:
`aspects()` and `compression()`. -/
structure Format where
  aspects : ImageAspects
  compression : Option CompressionKind
deriving DecidableEq, Repr

def Format.R8G8B8A8_UNORM : Format := ⟨⟨true, false, false⟩, none⟩

def Format.D16_UNORM : Format := ⟨⟨false, true, false⟩, none⟩

def Format.BC1_RGB_UNORM_BLOCK : Format := ⟨⟨true, false, false⟩, some CompressionKind.BC⟩

inductive ImageType
  | Dim1d
  | Dim2d
  | Dim3d
deriving DecidableEq, Repr

/-- `ImageDimensions`. -/
inductive ImageDimensions
  | Dim1d (width : Nat) (array_layers : Nat)
  | Dim2d (width : Nat) (height : Nat) (array_layers : Nat)
  | Dim3d (width : Nat) (height : Nat) (depth : Nat)
deriving DecidableEq, Repr

def ImageDimensions.array_layers : ImageDimensions → Nat
  | .Dim1d _ a => a
  | .Dim2d _ _ a => a
  | .Dim3d _ _ _ => 1

def ImageDimensions.image_type : ImageDimensions → ImageType
  | .Dim1d _ _ => .Dim1d
  | .Dim2d _ _ _ => .Dim2d
  | .Dim3d _ _ _ => .Dim3d

/-- `Sharing`: queue-family sharing mode of an image. -/
inductive Sharing
  | Exclusive
  | Concurrent (queue_family_indices : List Nat)
deriving DecidableEq, Repr

/-- Driver-reported memory requirements of a not-yet-bound image. -/
structure MemoryRequirements where
  size : Nat
  alignment : Nat
  memory_type_bits : Nat
deriving DecidableEq, Repr

inductive ExternalMemoryHandleType
  | OpaqueFd
  | DmaBuf
deriving DecidableEq, Repr

/-- Bitset of external-memory handle types. -/
structure ExternalMemoryHandleTypes where
  opaque_fd : Bool
  dma_buf : Bool
deriving DecidableEq, Repr

def ExternalMemoryHandleTypes.empty : ExternalMemoryHandleTypes := ⟨false, false⟩

def ExternalMemoryHandleTypes.OPAQUE_FD : ExternalMemoryHandleTypes := ⟨true, false⟩

def ExternalMemoryHandleTypes.contains (ts : ExternalMemoryHandleTypes) :
    ExternalMemoryHandleType → Bool
  | .OpaqueFd => ts.opaque_fd
  | .DmaBuf => ts.dma_buf

inductive DeviceMemoryError
  | HandleTypeNotEnabled
  | OutOfHostMemory
deriving DecidableEq, Repr

/-- A `DeviceMemory` object: one `vkAllocateMemory` allocation, of size
`allocation_size`, created with the given export handle types. -/
structure DeviceMemory where
  handle : Nat
  allocation_size : Nat
  export_handle_types : ExternalMemoryHandleTypes
deriving DecidableEq, Repr

/-- Modelled from the spec: exporting an OS-level handle from a device-memory
object (spec section 4.5; `DeviceMemory::export_fd` is outside the provided
sources).  The export succeeds, yielding a file descriptor, exactly when the
memory was allocated with the requested external handle type enabled;
otherwise it fails at runtime with a device-memory error. -/
def DeviceMemory.export_fd (m : DeviceMemory) (t : ExternalMemoryHandleType) :
    Except DeviceMemoryError Nat :=
  if m.export_handle_types.contains t then .ok m.handle
  else .error DeviceMemoryError.HandleTypeNotEnabled

/-- A `MemoryAlloc`: an allocation (possibly a sub-allocation) carved out of a
`DeviceMemory` object at `offset`, of length `size`. -/
structure MemoryAlloc where
  offset : Nat
  size : Nat
  device_memory : DeviceMemory
deriving DecidableEq, Repr

inductive AllocationType
  | Unknown
  | Linear
  | NonLinear
deriving DecidableEq, Repr

inductive MemoryUsage
  | GpuOnly
  | Upload
  | Download
deriving DecidableEq, Repr

inductive MemoryAllocatePreference
  | Unknown
  | NeverAllocate
  | AlwaysAllocate
deriving DecidableEq, Repr

/-- Dedicated-allocation hint, identifying the resource by its handle. -/
inductive DedicatedAllocation
  | Image (handle : Nat)
  | Buffer (handle : Nat)
deriving DecidableEq, Repr

/-- `AllocationCreateInfo` as built in `StorageImage::with_usage`. -/
structure AllocationCreateInfo where
  requirements : MemoryRequirements
  allocation_type : AllocationType
  usage : MemoryUsage
  allocate_preference : MemoryAllocatePreference
  dedicated_allocation : Option DedicatedAllocation
deriving DecidableEq, Repr

inductive AllocationCreationError
  | OutOfDeviceMemory
  | OutOfHostMemory
  | DedicatedAllocationRequired
  | BlockSizeExceeded
deriving DecidableEq, Repr

inductive ImageViewCreationError
  | ImageMissingUsage
  | IncompatibleFormat
deriving DecidableEq, Repr

inductive VulkanError
  | OutOfHostMemory
  | OutOfDeviceMemory
  | InitializationFailed
deriving DecidableEq, Repr

inductive ImageError
  | AllocError (e : AllocationCreationError)
  | DirectImageViewCreationFailed (e : ImageViewCreationError)
  | VulkanFailure (e : VulkanError)
deriving DecidableEq, Repr

/-- `ImageCreateInfo` (the fields `storage.rs` sets; the remaining fields of
the source struct keep their defaults and never vary in this file). -/
structure ImageCreateInfo where
  flags : ImageCreateFlags
  dimensions : ImageDimensions
  format : Option Format
  usage : ImageUsage
  sharing : Sharing
  external_memory_handle_types : ExternalMemoryHandleTypes
deriving DecidableEq, Repr

/-- A raw (not yet bound) image: the creation parameters it was made with,
its driver handle and its driver-reported memory requirements (one entry per
plane). -/
structure RawImage where
  handle : Nat
  flags : ImageCreateFlags
  dimensions : ImageDimensions
  format : Option Format
  usage : ImageUsage
  sharing : Sharing
  external_memory_handle_types : ExternalMemoryHandleTypes
  memory_requirements : List MemoryRequirements
deriving DecidableEq, Repr

/-- `ImageMemory`: how memory is attached to a bound image. -/
inductive ImageMemory
  | Normal (allocations : List MemoryAlloc)
  | Swapchain (image_index : Nat)
deriving DecidableEq, Repr

/-- A bound image (`sys::Image`): a raw image plus its attached memory. -/
structure Image where
  raw : RawImage
  memory : ImageMemory
deriving DecidableEq, Repr

/-- `StorageImage`: the owning wrapper around a bound image. -/
structure StorageImage where
  inner : Image
deriving DecidableEq, Repr

structure ExternalMemoryProperties where
  exportable : Bool
deriving DecidableEq, Repr

structure ImageFormatProperties where
  external_memory_properties : ExternalMemoryProperties
deriving DecidableEq, Repr

/-- `ImageFormatInfo` as built in `new_with_exportable_fd`. -/
structure ImageFormatInfo where
  flags : ImageCreateFlags
  format : Option Format
  image_type : ImageType
  usage : ImageUsage
  external_memory_handle_type : Option ExternalMemoryHandleType
deriving DecidableEq, Repr

/-- A queue; `storage.rs` only reads its queue-family index. -/
structure Queue where
  queue_family_index : Nat
deriving DecidableEq, Repr

/-- Result of running a construction routine: success, a returned error, or
a Rust panic (`panic!`, `assert!`, failed `unwrap`/`expect`, `unreachable!`,
or a failed debug assertion). -/
inductive Outcome (ε α : Type)
  | ok (a : α)
  | err (e : ε)
  | panicked (msg : String)
deriving DecidableEq, Repr

def Outcome.isOk {ε α : Type} : Outcome ε α → Bool
  | .ok _ => true
  | _ => false

/-- Observable interactions with the external collaborators (the device and
the memory allocator), recorded in order of occurrence. -/
inductive Event
  | rawImageCreated (raw : RawImage)
  | allocRequested (info : AllocationCreateInfo)
  | dedicatedAllocRequested (memory_type_index : Nat) (size : Nat)
      (dedicated : Option DedicatedAllocation) (types : ExternalMemoryHandleTypes)
  | allocReturned (alloc : MemoryAlloc)
  | bindAttempted (allocations : List MemoryAlloc)
  | bindFailed (e : ImageError)
  | allocReleased (alloc : MemoryAlloc)
deriving DecidableEq, Repr

/-- True when the trace contains a request to the memory allocator. -/
def allocatorCalled (tr : List Event) : Bool :=
  tr.any fun e =>
    match e with
    | .allocRequested _ => true
    | .dedicatedAllocRequested _ _ _ _ => true
    | _ => false

/-- The external collaborators of `storage.rs`, exposed through the result
contracts of spec section 6.  `debug_assertions` is the Rust
`cfg(debug_assertions)` flag governing `debug_assert!`.  `raw_new` decides
whether raw-image creation succeeds and, on success, supplies the driver
handle and the driver-reported memory requirements; the remaining creation
parameters are recorded verbatim in the resulting `RawImage`. -/
structure Env where
  debug_assertions : Bool
  raw_new : ImageCreateInfo → Except ImageError (Nat × List MemoryRequirements)
  allocate_unchecked : AllocationCreateInfo → Except AllocationCreationError MemoryAlloc
  find_memory_type_index : Nat → MemoryUsage → Option Nat
  allocate_dedicated_unchecked : Nat → Nat → Option DedicatedAllocation →
    ExternalMemoryHandleTypes → Except AllocationCreationError MemoryAlloc
  bind_check : RawImage → List MemoryAlloc → Option ImageError
  image_format_properties : ImageFormatInfo → Except VulkanError (Option ImageFormatProperties)

/-- `StorageImage::with_usage`. -/
def StorageImage.with_usage (env : Env) (dimensions : ImageDimensions) (format : Format)
    (usage : ImageUsage) (flags : ImageCreateFlags) (queue_family_indices : List Nat) :
    Outcome ImageError StorageImage × List Event :=
  if flags.intersects ImageCreateFlags.DISJOINT then
    (.panicked (r"assertion failed: !flags.intersects(ImageCreateFlags::DISJOINT)"), [])
  else
    let sharing : Sharing :=
      if queue_family_indices.length ≥ 2 then Sharing.Concurrent queue_family_indices
      else Sharing.Exclusive
    match env.raw_new ⟨flags, dimensions, some format, usage, sharing,
        ExternalMemoryHandleTypes.empty⟩ with
    | .error e => (.err e, [])
    | .ok (handle, reqs) =>
      let raw : RawImage := ⟨handle, flags, dimensions, some format, usage, sharing,
        ExternalMemoryHandleTypes.empty, reqs⟩
      match reqs with
      | [] => (.panicked (r"index out of bounds"), [Event.rawImageCreated raw])
      | requirements :: _ =>
        let create_info : AllocationCreateInfo :=
          ⟨requirements, AllocationType.NonLinear, MemoryUsage.GpuOnly,
            MemoryAllocatePreference.Unknown, some (DedicatedAllocation.Image handle)⟩
        match env.allocate_unchecked create_info with
        | .error e =>
          (.err (ImageError.AllocError e),
            [Event.rawImageCreated raw, Event.allocRequested create_info])
        | .ok alloc =>
          if env.debug_assertions && (alloc.offset % requirements.alignment != 0) then
            (.panicked (r"debug assertion failed"),
              [Event.rawImageCreated raw, Event.allocRequested create_info,
                Event.allocReturned alloc])
          else if env.debug_assertions && (alloc.size != requirements.size) then
            (.panicked (r"debug assertion failed"),
              [Event.rawImageCreated raw, Event.allocRequested create_info,
                Event.allocReturned alloc])
          else
            match env.bind_check raw [alloc] with
            | none =>
              (.ok ⟨⟨raw, ImageMemory.Normal [alloc]⟩⟩,
                [Event.rawImageCreated raw, Event.allocRequested create_info,
                  Event.allocReturned alloc, Event.bindAttempted [alloc]])
            | some e =>
              (.err e,
                [Event.rawImageCreated raw, Event.allocRequested create_info,
                  Event.allocReturned alloc, Event.bindAttempted [alloc],
                  Event.bindFailed e, Event.allocReleased alloc])

/-- `StorageImage::new`. -/
def StorageImage.new (env : Env) (dimensions : ImageDimensions) (format : Format)
    (queue_family_indices : List Nat) : Outcome ImageError StorageImage × List Event :=
  let aspects := format.aspects
  let is_depth_stencil := aspects.intersects (ImageAspects.DEPTH.union ImageAspects.STENCIL)
  if format.compression.isSome then
    (.panicked (r"explicit panic"), [])
  else
    let usage :=
      ImageUsage.TRANSFER_SRC.union (ImageUsage.TRANSFER_DST.union
        (ImageUsage.SAMPLED.union (ImageUsage.STORAGE.union
          (ImageUsage.INPUT_ATTACHMENT.union
            (if is_depth_stencil then ImageUsage.DEPTH_STENCIL_ATTACHMENT
             else ImageUsage.COLOR_ATTACHMENT)))))
    let flags := ImageCreateFlags.empty
    StorageImage.with_usage env dimensions format usage flags queue_family_indices

/-- `StorageImage::new_with_exportable_fd`. -/
def StorageImage.new_with_exportable_fd (env : Env) (dimensions : ImageDimensions)
    (format : Format) (usage : ImageUsage) (flags : ImageCreateFlags)
    (queue_family_indices : List Nat) : Outcome ImageError StorageImage × List Event :=
  if flags.intersects ImageCreateFlags.DISJOINT then
    (.panicked (r"assertion failed: !flags.intersects(ImageCreateFlags::DISJOINT)"), [])
  else
    match env.image_format_properties ⟨flags, some format, dimensions.image_type, usage,
        some ExternalMemoryHandleType.OpaqueFd⟩ with
    | .error _ => (.panicked (r"called Result::unwrap on an Err value"), [])
    | .ok none => (.panicked (r"called Option::unwrap on a None value"), [])
    | .ok (some props) =>
      if !props.external_memory_properties.exportable then
        (.panicked (r"assertion failed: external_memory_properties.exportable"), [])
      else
        let external_memory_handle_types := ExternalMemoryHandleTypes.OPAQUE_FD
        let sharing : Sharing :=
          if queue_family_indices.length ≥ 2 then Sharing.Concurrent queue_family_indices
          else Sharing.Exclusive
        match env.raw_new ⟨flags, dimensions, some format, usage, sharing,
            external_memory_handle_types⟩ with
        | .error e => (.err e, [])
        | .ok (handle, reqs) =>
          let raw : RawImage := ⟨handle, flags, dimensions, some format, usage, sharing,
            external_memory_handle_types, reqs⟩
          match reqs with
          | [] => (.panicked (r"index out of bounds"), [Event.rawImageCreated raw])
          | requirements :: _ =>
            match env.find_memory_type_index requirements.memory_type_bits
                MemoryUsage.GpuOnly with
            | none =>
              (.panicked (r"failed to find a suitable memory type"), [Event.rawImageCreated raw])
            | some memory_type_index =>
              match env.allocate_dedicated_unchecked memory_type_index requirements.size
                  (some (DedicatedAllocation.Image handle)) external_memory_handle_types with
              | .error e =>
                (.err (ImageError.AllocError e),
                  [Event.rawImageCreated raw,
                    Event.dedicatedAllocRequested memory_type_index requirements.size
                      (some (DedicatedAllocation.Image handle)) external_memory_handle_types])
              | .ok alloc =>
                if env.debug_assertions && (alloc.offset % requirements.alignment != 0) then
                  (.panicked (r"debug assertion failed"),
                    [Event.rawImageCreated raw,
                      Event.dedicatedAllocRequested memory_type_index requirements.size
                        (some (DedicatedAllocation.Image handle)) external_memory_handle_types,
                      Event.allocReturned alloc])
                else if env.debug_assertions && (alloc.size != requirements.size) then
                  (.panicked (r"debug assertion failed"),
                    [Event.rawImageCreated raw,
                      Event.dedicatedAllocRequested memory_type_index requirements.size
                        (some (DedicatedAllocation.Image handle)) external_memory_handle_types,
                      Event.allocReturned alloc])
                else
                  match env.bind_check raw [alloc] with
                  | none =>
                    (.ok ⟨⟨raw, ImageMemory.Normal [alloc]⟩⟩,
                      [Event.rawImageCreated raw,
                        Event.dedicatedAllocRequested memory_type_index requirements.size
                          (some (DedicatedAllocation.Image handle))
                          external_memory_handle_types,
                        Event.allocReturned alloc, Event.bindAttempted [alloc]])
                  | some e =>
                    (.err e,
                      [Event.rawImageCreated raw,
                        Event.dedicatedAllocRequested memory_type_index requirements.size
                          (some (DedicatedAllocation.Image handle))
                          external_memory_handle_types,
                        Event.allocReturned alloc, Event.bindAttempted [alloc],
                        Event.bindFailed e, Event.allocReleased alloc])

/-- `StorageImage::mem_size`: the size of the allocated device memory.
The source reads `self.inner.memory()`, requires the `Normal` variant
(`unreachable!()` otherwise), indexes allocation 0 (a panic on an empty
slice) and returns `allocation.device_memory().allocation_size()`. -/
def StorageImage.mem_size (s : StorageImage) : Outcome Unit Nat :=
  match s.inner.memory with
  | ImageMemory.Normal (allocation :: _) => .ok allocation.device_memory.allocation_size
  | ImageMemory.Normal [] => .panicked (r"index out of bounds")
  | _ => .panicked (r"internal error: entered unreachable code")

/-- The reading of claim C1 taken from the spec's words (spec section 3 and
4.5): the bound allocation's own reported size, i.e. `allocation.size()`
rather than `allocation.device_memory().allocation_size()`.  Declared only
to be compared with `StorageImage.mem_size`. -/
def StorageImage.spec_allocation_size (s : StorageImage) : Outcome Unit Nat :=
  match s.inner.memory with
  | ImageMemory.Normal (allocation :: _) => .ok allocation.size
  | ImageMemory.Normal [] => .panicked (r"index out of bounds")
  | _ => .panicked (r"internal error: entered unreachable code")

/-- `StorageImage::export_posix_fd`. -/
def StorageImage.export_posix_fd (s : StorageImage) : Outcome DeviceMemoryError Nat :=
  match s.inner.memory with
  | ImageMemory.Normal (allocation :: _) =>
    match allocation.device_memory.export_fd ExternalMemoryHandleType.OpaqueFd with
    | .ok fd => .ok fd
    | .error e => .err e
  | ImageMemory.Normal [] => .panicked (r"index out of bounds")
  | _ => .panicked (r"internal error: entered unreachable code")

/-- An image view over a storage image. -/
structure ImageView where
  image : StorageImage
deriving DecidableEq, Repr

/-- Modelled from the spec: `ImageView::new_default` (the `image::view`
module is outside the provided sources).  Per spec sections 4.4 and 8, a
default view requires the image's granted usage to contain at least one
view-capable capability (sampled, storage, an attachment bit or input
attachment); an image granted only transfer usage fails with the
distinguishable missing-usage error, as exercised by the repository test
`create_general_purpose_image_view_failed`. -/
def ImageView.new_default (image : StorageImage) : Except ImageViewCreationError ImageView :=
  let u := image.inner.raw.usage
  if u.sampled || u.storage_bit || u.color_attachment || u.depth_stencil_attachment ||
      u.input_attachment then
    .ok ⟨image⟩
  else
    .error ImageViewCreationError.ImageMissingUsage

/-- `StorageImage::general_purpose_image_view`. -/
def StorageImage.general_purpose_image_view (env : Env) (queue : Queue) (size : Nat × Nat)
    (format : Format) (usage : ImageUsage) : Outcome ImageError ImageView × List Event :=
  let dims := ImageDimensions.Dim2d size.1 size.2 1
  let flags := ImageCreateFlags.empty
  match StorageImage.with_usage env dims format usage flags [queue.queue_family_index] with
  | (.ok image, tr) =>
    match ImageView.new_default image with
    | .ok view => (.ok view, tr)
    | .error e => (.err (ImageError.DirectImageViewCreationFailed e), tr)
  | (.err e, tr) => (.err e, tr)
  | (.panicked m, tr) => (.panicked m, tr)

/-- Modelled from the spec: equality of `sys::Image` (outside the provided
sources) is identity of the underlying raw image object (spec section 3,
Identity); the driver handle uniquely names a live raw image object, so
identity is handle equality. -/
def Image.same_object (a b : Image) : Bool :=
  a.raw.handle == b.raw.handle

/-- `ImageInner` as produced by `ImageAccess::inner` for `StorageImage`. -/
structure ImageInner where
  image : Image
  first_layer : Nat
  num_layers : Nat
  first_mipmap_level : Nat
  num_mipmap_levels : Nat
deriving DecidableEq, Repr

/-- Derived equality of `ImageInner`: the image by object identity, the
remaining fields structurally. -/
def ImageInner.beq (a b : ImageInner) : Bool :=
  Image.same_object a.image b.image && a.first_layer == b.first_layer &&
    a.num_layers == b.num_layers && a.first_mipmap_level == b.first_mipmap_level &&
    a.num_mipmap_levels == b.num_mipmap_levels

/-- Derived hash of `ImageInner`; the image contributes its identity
(handle), the remaining fields their values. -/
def ImageInner.hashVal (i : ImageInner) : Nat :=
  ((((i.image.raw.handle * 31 + i.first_layer) * 31 + i.num_layers) * 31 +
      i.first_mipmap_level) * 31 + i.num_mipmap_levels)

/-- `ImageAccess::inner` for `StorageImage`. -/
def StorageImage.inner_access (s : StorageImage) : ImageInner :=
  ⟨s.inner, 0, s.inner.raw.dimensions.array_layers, 0, 1⟩

/-- `PartialEq for StorageImage`: `self.inner() == other.inner()`. -/
def StorageImage.beq (a b : StorageImage) : Bool :=
  a.inner_access.beq b.inner_access

/-- `Hash for StorageImage`: `self.inner().hash(state)`. -/
def StorageImage.hashVal (s : StorageImage) : Nat :=
  s.inner_access.hashVal

inductive ImageLayout
  | Undefined
  | General
  | ColorAttachmentOptimal
  | DepthStencilAttachmentOptimal
  | ShaderReadOnlyOptimal
  | TransferSrcOptimal
  | TransferDstOptimal
deriving DecidableEq, Repr

structure ImageDescriptorLayouts where
  storage_image : ImageLayout
  combined_image_sampler : ImageLayout
  sampled_image : ImageLayout
  input_attachment : ImageLayout
deriving DecidableEq, Repr

/-- `ImageAccess::initial_layout_requirement` for `StorageImage`. -/
def StorageImage.initial_layout_requirement (_ : StorageImage) : ImageLayout :=
  ImageLayout.General

/-- `ImageAccess::final_layout_requirement` for `StorageImage`. -/
def StorageImage.final_layout_requirement (_ : StorageImage) : ImageLayout :=
  ImageLayout.General

/-- `ImageAccess::descriptor_layouts` for `StorageImage`. -/
def StorageImage.descriptor_layouts (_ : StorageImage) : Option ImageDescriptorLayouts :=
  some ⟨ImageLayout.General, ImageLayout.General, ImageLayout.General, ImageLayout.General⟩

/-- The image produced by a construction run, when it succeeded. -/
def runImage (r : Outcome ImageError StorageImage × List Event) : Option StorageImage :=
  match r.1 with
  | .ok img => some img
  | _ => none

/-- Whenever binding is attempted, the allocation about to be bound satisfies
the driver-reported alignment and size requirements of the raw image. -/
def assertedInvariant (r : Outcome ImageError StorageImage × List Event) : Prop :=
  ∀ raw req rest alloc, Event.rawImageCreated raw ∈ r.2 →
    raw.memory_requirements = req :: rest →
    Event.bindAttempted [alloc] ∈ r.2 →
    alloc.offset % req.alignment = 0 ∧ alloc.size = req.size

/-- A returned allocation violating the alignment or size requirement makes
the construction run end in the debug-assertion panic. -/
def fatalOnViolation (r : Outcome ImageError StorageImage × List Event) : Prop :=
  ∀ raw req rest alloc, Event.rawImageCreated raw ∈ r.2 →
    raw.memory_requirements = req :: rest →
    Event.allocReturned alloc ∈ r.2 →
    ¬(alloc.offset % req.alignment = 0 ∧ alloc.size = req.size) →
    r.1 = Outcome.panicked (r"debug assertion failed")

/-- On a bind failure the run returns exactly the binding error (so no image
escapes to the caller) and the returned allocation has been released. -/
def releasesOnBindFailure (r : Outcome ImageError StorageImage × List Event) : Prop :=
  ∀ e alloc, Event.bindFailed e ∈ r.2 → Event.allocReturned alloc ∈ r.2 →
    r.1 = Outcome.err e ∧ Event.allocReleased alloc ∈ r.2

/-- Concrete dimensions used by the witnesses: a 32 by 32 2D image with one
array layer. -/
def dimsW : ImageDimensions := ImageDimensions.Dim2d 32 32 1

/-- Concrete usage used by the witnesses. -/
def usageW : ImageUsage := ImageUsage.TRANSFER_SRC.union ImageUsage.TRANSFER_DST

/-- Concrete memory requirements reported by the witness environments. -/
def reqW : MemoryRequirements := ⟨256, 4, 1⟩

/-- A concrete well-behaved pooled-path environment: debug assertions are on,
raw-image creation yields handle 7 with requirements `reqW`, the allocator
returns a sub-allocation of a 1024-byte non-exportable device-memory block,
and binding succeeds. -/
def pooledEnv : Env :=
  ⟨true,
    fun _ => .ok (7, [reqW]),
    fun info => .ok ⟨0, info.requirements.size, ⟨11, 1024, ExternalMemoryHandleTypes.empty⟩⟩,
    fun _ _ => some 0,
    fun _ size _ types => .ok ⟨0, size, ⟨12, size, types⟩⟩,
    fun _ _ => none,
    fun _ => .ok (some ⟨⟨true⟩⟩)⟩

/-- The allocation `pooledEnv` returns on the pooled path. -/
def allocW : MemoryAlloc := ⟨0, 256, ⟨11, 1024, ExternalMemoryHandleTypes.empty⟩⟩

/-- The raw image created on `pooledEnv` witness runs. -/
def rawW : RawImage :=
  ⟨7, ImageCreateFlags.empty, dimsW, some Format.R8G8B8A8_UNORM, usageW, Sharing.Exclusive,
    ExternalMemoryHandleTypes.empty, [reqW]⟩

/-- The allocation-create info of `pooledEnv` witness runs. -/
def ciW : AllocationCreateInfo :=
  ⟨reqW, AllocationType.NonLinear, MemoryUsage.GpuOnly, MemoryAllocatePreference.Unknown,
    some (DedicatedAllocation.Image 7)⟩

/-- The image produced by the `pooledRun` witness run. -/
def imgW : StorageImage := ⟨⟨rawW, ImageMemory.Normal [allocW]⟩⟩

/-- The trace of the `pooledRun` witness run. -/
def trW : List Event :=
  [Event.rawImageCreated rawW, Event.allocRequested ciW, Event.allocReturned allocW,
    Event.bindAttempted [allocW]]

/-- A pooled-path construction run on the well-behaved environment. -/
def pooledRun : Outcome ImageError StorageImage × List Event :=
  StorageImage.with_usage pooledEnv dimsW Format.R8G8B8A8_UNORM usageW ImageCreateFlags.empty [0]

/-- The same run with the one queue-family index supplied twice. -/
def dupRun : Outcome ImageError StorageImage × List Event :=
  StorageImage.with_usage pooledEnv dimsW Format.R8G8B8A8_UNORM usageW ImageCreateFlags.empty
    [0, 0]

/-- An explicit-usage construction run handed a block-compressed format. -/
def bcRun : Outcome ImageError StorageImage × List Event :=
  StorageImage.with_usage pooledEnv dimsW Format.BC1_RGB_UNORM_BLOCK usageW
    ImageCreateFlags.empty [0]

/-- A default construction run on the well-behaved environment. -/
def newRun : Outcome ImageError StorageImage × List Event :=
  StorageImage.new pooledEnv dimsW Format.R8G8B8A8_UNORM [0]

/-- The usage derived by `StorageImage::new` for a color format. -/
def usageN : ImageUsage := ⟨true, true, true, true, true, false, true⟩

/-- The raw image of the `newRun` witness run. -/
def rawN : RawImage :=
  ⟨7, ImageCreateFlags.empty, dimsW, some Format.R8G8B8A8_UNORM, usageN, Sharing.Exclusive,
    ExternalMemoryHandleTypes.empty, [reqW]⟩

/-- The image produced by the `newRun` witness run. -/
def imgN : StorageImage := ⟨⟨rawN, ImageMemory.Normal [allocW]⟩⟩

/-- The trace of the `newRun` witness run. -/
def trN : List Event :=
  [Event.rawImageCreated rawN,
    Event.allocRequested ⟨reqW, AllocationType.NonLinear, MemoryUsage.GpuOnly,
      MemoryAllocatePreference.Unknown, some (DedicatedAllocation.Image 7)⟩,
    Event.allocReturned allocW, Event.bindAttempted [allocW]]

/-- Like `pooledEnv` but binding always fails with a driver error. -/
def bindFailEnv : Env :=
  ⟨true,
    fun _ => .ok (7, [reqW]),
    fun info => .ok ⟨0, info.requirements.size, ⟨11, 1024, ExternalMemoryHandleTypes.empty⟩⟩,
    fun _ _ => some 0,
    fun _ size _ types => .ok ⟨0, size, ⟨12, size, types⟩⟩,
    fun _ _ => some (ImageError.VulkanFailure VulkanError.InitializationFailed),
    fun _ => .ok (some ⟨⟨true⟩⟩)⟩

/-- A pooled-path run whose bind step fails. -/
def bindFailRun : Outcome ImageError StorageImage × List Event :=
  StorageImage.with_usage bindFailEnv dimsW Format.R8G8B8A8_UNORM usageW ImageCreateFlags.empty
    [0]

/-- A misbehaving allocation: misaligned (offset 3 against alignment 4) and
of the wrong size (999 against required 256). -/
def allocBad : MemoryAlloc := ⟨3, 999, ⟨13, 2048, ExternalMemoryHandleTypes.empty⟩⟩

/-- Like `pooledEnv` but with debug assertions off (a release build) and an
allocator that violates the alignment and size requirements. -/
def noDebugEnv : Env :=
  ⟨false,
    fun _ => .ok (7, [reqW]),
    fun _ => .ok allocBad,
    fun _ _ => some 0,
    fun _ _ _ _ => .ok allocBad,
    fun _ _ => none,
    fun _ => .ok (some ⟨⟨true⟩⟩)⟩

/-- A release-build pooled-path run on the requirement-violating allocator. -/
def noDebugRun : Outcome ImageError StorageImage × List Event :=
  StorageImage.with_usage noDebugEnv dimsW Format.R8G8B8A8_UNORM usageW ImageCreateFlags.empty
    [0]

/-- The raw image of the transfer-only view witness run. -/
def rawV : RawImage :=
  ⟨7, ImageCreateFlags.empty, dimsW, some Format.R8G8B8A8_UNORM, ImageUsage.TRANSFER_SRC,
    Sharing.Exclusive, ExternalMemoryHandleTypes.empty, [reqW]⟩

/-- The image of the transfer-only view witness run. -/
def imgV : StorageImage := ⟨⟨rawV, ImageMemory.Normal [allocW]⟩⟩

/-- The trace of the transfer-only view witness run. -/
def trV : List Event :=
  [Event.rawImageCreated rawV, Event.allocRequested ciW, Event.allocReturned allocW,
    Event.bindAttempted [allocW]]

end Vulkano

namespace Vulkano

lemma with_usage_ok_fields (env : Env) (d : ImageDimensions) (f : Format) (u : ImageUsage)
    (fl : ImageCreateFlags) (q : List Nat) (img : StorageImage) (tr : List Event)
    (h : StorageImage.with_usage env d f u fl q = (.ok img, tr)) :
    img.inner.raw.usage = u ∧ img.inner.raw.dimensions = d ∧ img.inner.raw.format = some f ∧
    img.inner.raw.sharing =
      (if q.length ≥ 2 then Sharing.Concurrent q else Sharing.Exclusive) ∧
    ∃ alloc, img.inner.memory = ImageMemory.Normal [alloc] ∧ Event.allocReturned alloc ∈ tr := by
  unfold StorageImage.with_usage at h
  split at h
  · simp at h
  · dsimp only at h
    split at h
    · simp at h
    · split at h
      · simp at h
      · split at h
        · simp at h
        · split at h
          · simp at h
          · split at h
            · simp at h
            · split at h
              · rw [Prod.mk.injEq] at h
                obtain ⟨h1, h2⟩ := h
                rw [Outcome.ok.injEq] at h1
                subst h2
                subst h1
                exact ⟨rfl, rfl, rfl, rfl, _, rfl, by simp⟩
              · simp at h

lemma exportable_ok_fields (env : Env) (d : ImageDimensions) (f : Format) (u : ImageUsage)
    (fl : ImageCreateFlags) (q : List Nat) (img : StorageImage) (tr : List Event)
    (h : StorageImage.new_with_exportable_fd env d f u fl q = (.ok img, tr)) :
    img.inner.raw.usage = u ∧ img.inner.raw.dimensions = d ∧ img.inner.raw.format = some f ∧
    img.inner.raw.sharing =
      (if q.length ≥ 2 then Sharing.Concurrent q else Sharing.Exclusive) ∧
    ∃ alloc, img.inner.memory = ImageMemory.Normal [alloc] ∧ Event.allocReturned alloc ∈ tr := by
  unfold StorageImage.new_with_exportable_fd at h
  split at h
  · simp at h
  · dsimp only at h
    split at h
    · simp at h
    · simp at h
    · split at h
      · simp at h
      · split at h
        · simp at h
        · split at h
          · simp at h
          · split at h
            · simp at h
            · split at h
              · simp at h
              · split at h
                · simp at h
                · split at h
                  · simp at h
                  · split at h
                    · rw [Prod.mk.injEq] at h
                      obtain ⟨h1, h2⟩ := h
                      rw [Outcome.ok.injEq] at h1
                      subst h2
                      subst h1
                      exact ⟨rfl, rfl, rfl, rfl, _, rfl, by simp⟩
                    · simp at h

lemma with_usage_asserts (env : Env) (d : ImageDimensions) (f : Format) (u : ImageUsage)
    (fl : ImageCreateFlags) (q : List Nat) (hda : env.debug_assertions = true) :
    assertedInvariant (StorageImage.with_usage env d f u fl q) ∧
      fatalOnViolation (StorageImage.with_usage env d f u fl q) := by
  unfold assertedInvariant fatalOnViolation StorageImage.with_usage
  dsimp only
  repeat' split
  all_goals constructor
  all_goals intro raw req rest alloc hraw hreq hmem
  all_goals try (exfalso; simp at hraw; done)
  all_goals try (exfalso; simp at hmem; done)
  all_goals try (intro hviol; rfl)
  all_goals simp at hraw hmem
  all_goals subst hraw
  all_goals subst hmem
  all_goals simp at hreq
  all_goals obtain ⟨hreq1, hreq2⟩ := hreq
  all_goals subst hreq1
  all_goals try intro hviol
  all_goals simp_all

lemma exportable_asserts (env : Env) (d : ImageDimensions) (f : Format) (u : ImageUsage)
    (fl : ImageCreateFlags) (q : List Nat) (hda : env.debug_assertions = true) :
    assertedInvariant (StorageImage.new_with_exportable_fd env d f u fl q) ∧
      fatalOnViolation (StorageImage.new_with_exportable_fd env d f u fl q) := by
  unfold assertedInvariant fatalOnViolation StorageImage.new_with_exportable_fd
  dsimp only
  repeat' split
  all_goals constructor
  all_goals intro raw req rest alloc hraw hreq hmem
  all_goals try (exfalso; simp at hraw; done)
  all_goals try (exfalso; simp at hmem; done)
  all_goals try (intro hviol; rfl)
  all_goals simp at hraw hmem
  all_goals subst hraw
  all_goals subst hmem
  all_goals simp at hreq
  all_goals obtain ⟨hreq1, hreq2⟩ := hreq
  all_goals subst hreq1
  all_goals try intro hviol
  all_goals simp_all

lemma with_usage_releases (env : Env) (d : ImageDimensions) (f : Format) (u : ImageUsage)
    (fl : ImageCreateFlags) (q : List Nat) :
    releasesOnBindFailure (StorageImage.with_usage env d f u fl q) := by
  unfold releasesOnBindFailure StorageImage.with_usage
  dsimp only
  repeat' split
  all_goals intro e alloc he ha
  all_goals try (exfalso; simp at he; done)
  all_goals simp at he ha
  all_goals subst he
  all_goals subst ha
  all_goals exact ⟨rfl, by simp⟩

lemma exportable_releases (env : Env) (d : ImageDimensions) (f : Format) (u : ImageUsage)
    (fl : ImageCreateFlags) (q : List Nat) :
    releasesOnBindFailure (StorageImage.new_with_exportable_fd env d f u fl q) := by
  unfold releasesOnBindFailure StorageImage.new_with_exportable_fd
  dsimp only
  repeat' split
  all_goals intro e alloc he ha
  all_goals try (exfalso; simp at he; done)
  all_goals simp at he ha
  all_goals subst he
  all_goals subst ha
  all_goals exact ⟨rfl, by simp⟩

end Vulkano

namespace Vulkano

/-- Claim C10: for every StorageImage, regardless of construction path,
initial_layout_requirement and final_layout_requirement both return
ImageLayout::General, and descriptor_layouts returns Some with
storage_image, combined_image_sampler, sampled_image and input_attachment
all equal to General. -/
theorem claim_C10_theorem (s : StorageImage) :
    s.initial_layout_requirement = ImageLayout.General ∧
    s.final_layout_requirement = ImageLayout.General ∧
    s.descriptor_layouts = some ⟨ImageLayout.General, ImageLayout.General, ImageLayout.General,
      ImageLayout.General⟩ :=
  ⟨rfl, rfl, rfl⟩

/-- Claim C6 (amended): with debug assertions enabled, in both construction
paths every allocation that reaches binding satisfies
allocation.offset % requirements.alignment == 0 and
allocation.size == requirements.size, and a returned allocation violating
either requirement makes construction end in the debug-assertion panic.
(The claim as frozen says a violation is asserted fatally and never
silently tolerated in every build; the checks are debug assertions, so with
debug assertions disabled a violation passes silently — see the
counterexample.) -/
theorem claim_C6_amended (env : Env) (d : ImageDimensions) (f : Format) (u : ImageUsage)
    (fl : ImageCreateFlags) (q : List Nat) (hda : env.debug_assertions = true) :
    (assertedInvariant (StorageImage.with_usage env d f u fl q) ∧
      fatalOnViolation (StorageImage.with_usage env d f u fl q)) ∧
    (assertedInvariant (StorageImage.new_with_exportable_fd env d f u fl q) ∧
      fatalOnViolation (StorageImage.new_with_exportable_fd env d f u fl q)) :=
  ⟨with_usage_asserts env d f u fl q hda, exportable_asserts env d f u fl q hda⟩

/-- Claim C6 witness: on the concrete well-behaved environment the
allocation bound by the pooled path satisfies the alignment and size
requirements. -/
theorem claim_C6_witness :
    allocW.offset % reqW.alignment = 0 ∧ allocW.size = reqW.size :=
  (claim_C6_amended pooledEnv dimsW Format.R8G8B8A8_UNORM usageW ImageCreateFlags.empty [0]
    rfl).1.1 rawW reqW [] allocW (by decide) rfl (by decide)

/-- Claim C6 counterexample: with debug assertions disabled (a release
build, where Rust debug_assert! is compiled out) an allocation that is
misaligned and of the wrong size is bound without any panic and the
construction run succeeds — the violation is silently tolerated, against
the claim's "never silently tolerated". -/
theorem claim_C6_counterexample :
    noDebugRun.1.isOk = true ∧
    Event.rawImageCreated rawW ∈ noDebugRun.2 ∧
    rawW.memory_requirements = [reqW] ∧
    Event.allocReturned allocBad ∈ noDebugRun.2 ∧
    Event.bindAttempted [allocBad] ∈ noDebugRun.2 ∧
    ¬(allocBad.offset % reqW.alignment = 0 ∧ allocBad.size = reqW.size) := by
  decide

/-- Claim C7: in both construction paths, if binding fails after a
successful allocation, the run returns exactly the binding error (no image
escapes) and the allocation has been released before returning. -/
theorem claim_C7_theorem (env : Env) (d : ImageDimensions) (f : Format) (u : ImageUsage)
    (fl : ImageCreateFlags) (q : List Nat) :
    releasesOnBindFailure (StorageImage.with_usage env d f u fl q) ∧
    releasesOnBindFailure (StorageImage.new_with_exportable_fd env d f u fl q) :=
  ⟨with_usage_releases env d f u fl q, exportable_releases env d f u fl q⟩

/-- Claim C7 witness: on the concrete environment whose bind step fails,
the pooled path returns the binding error and the trace records the release
of the allocation. -/
theorem claim_C7_witness :
    bindFailRun.1 = Outcome.err (ImageError.VulkanFailure VulkanError.InitializationFailed) ∧
    Event.allocReleased allocW ∈ bindFailRun.2 :=
  (claim_C7_theorem bindFailEnv dimsW Format.R8G8B8A8_UNORM usageW ImageCreateFlags.empty
    [0]).1 (ImageError.VulkanFailure VulkanError.InitializationFailed) allocW (by decide)
    (by decide)

/-- Claim C1 (amended): for every StorageImage in the Bound state (memory is
a normal bound allocation list), mem_size returns the allocation_size of the
device-memory object backing the first bound allocation — not the bound
allocation's own size, which can be smaller for pooled sub-allocations (see
the counterexample).  mem_size is a pure function: read-only, no side
effects. -/
theorem claim_C1_amended (s : StorageImage) (alloc : MemoryAlloc) (rest : List MemoryAlloc)
    (h : s.inner.memory = ImageMemory.Normal (alloc :: rest)) :
    StorageImage.mem_size s = Outcome.ok alloc.device_memory.allocation_size := by
  unfold StorageImage.mem_size
  rw [h]

/-- Claim C1 witness: on the image built by the concrete pooled run,
mem_size returns the 1024-byte size of the backing device memory. -/
theorem claim_C1_witness : StorageImage.mem_size imgW = Outcome.ok 1024 :=
  claim_C1_amended imgW allocW [] rfl

/-- Claim C1 counterexample: a pooled construction run in which the
allocator returns a 256-byte sub-allocation of a 1024-byte device-memory
block; mem_size returns 1024 (the device memory's allocation_size) while
the bound allocation's own reported size is 256. -/
theorem claim_C1_counterexample :
    (runImage pooledRun).map StorageImage.mem_size = some (Outcome.ok 1024) ∧
    (runImage pooledRun).map StorageImage.spec_allocation_size = some (Outcome.ok 256) ∧
    (1024 : Nat) ≠ 256 := by
  decide

/-- Claim C4 (amended): export_posix_fd is invocable on every StorageImage
regardless of construction path — it is not structurally unavailable for
pooled-path images — and on a Bound image whose backing device memory lacks
the opaque-fd external handle type (as the pooled path produces) it fails
at runtime with a device-memory error. -/
theorem claim_C4_amended (s : StorageImage) (alloc : MemoryAlloc) (rest : List MemoryAlloc)
    (h : s.inner.memory = ImageMemory.Normal (alloc :: rest))
    (hex : alloc.device_memory.export_handle_types.contains ExternalMemoryHandleType.OpaqueFd =
      false) :
    StorageImage.export_posix_fd s = Outcome.err DeviceMemoryError.HandleTypeNotEnabled := by
  unfold StorageImage.export_posix_fd
  rw [h]
  simp [DeviceMemory.export_fd, hex]

/-- Claim C4 witness: export_posix_fd applied to the image of the concrete
pooled run returns the runtime handle-type error. -/
theorem claim_C4_witness :
    StorageImage.export_posix_fd imgW = Outcome.err DeviceMemoryError.HandleTypeNotEnabled :=
  claim_C4_amended imgW allocW [] rfl rfl

/-- Claim C4 counterexample: export_posix_fd applied to an image built via
the default/pooled path evaluates — the operation is reachable on an
ordinarily constructed resource — and yields a runtime error rather than
being structurally excluded. -/
theorem claim_C4_counterexample :
    (runImage pooledRun).map StorageImage.export_posix_fd =
      some (Outcome.err DeviceMemoryError.HandleTypeNotEnabled) := by
  decide

/-- Claim C3 (amended): in the default construction variant (new), a
compressed format causes an immediate panic before any collaborator call —
the trace is empty, so in particular no allocator call is observed.  The
explicit-usage variants perform no compression check (see the
counterexample). -/
theorem claim_C3_amended (env : Env) (d : ImageDimensions) (f : Format) (q : List Nat)
    (h : f.compression.isSome = true) :
    StorageImage.new env d f q = (Outcome.panicked (r"explicit panic"), []) ∧
    allocatorCalled (StorageImage.new env d f q).2 = false := by
  unfold StorageImage.new
  simp [h, allocatorCalled]

/-- Claim C3 witness: new applied to the block-compressed BC1 format panics
with an empty trace. -/
theorem claim_C3_witness :
    StorageImage.new pooledEnv dimsW Format.BC1_RGB_UNORM_BLOCK [0] =
      (Outcome.panicked (r"explicit panic"), []) ∧
    allocatorCalled (StorageImage.new pooledEnv dimsW Format.BC1_RGB_UNORM_BLOCK [0]).2 =
      false :=
  claim_C3_amended pooledEnv dimsW Format.BC1_RGB_UNORM_BLOCK [0] rfl

/-- Claim C3 counterexample: with_usage handed the block-compressed BC1
format does not fail — on a well-behaved environment the construction
succeeds and the allocator is called, against the claim's "in every
construction variant, construction fails immediately before any allocation
is attempted". -/
theorem claim_C3_counterexample :
    Format.BC1_RGB_UNORM_BLOCK.compression.isSome = true ∧
    bcRun.1.isOk = true ∧
    allocatorCalled bcRun.2 = true := by
  decide

/-- Claim C2 (amended): in all three construction variants the created
image's sharing mode is Concurrent over the supplied queue-family index
list (duplicates preserved) exactly when the list's length is at least 2,
and Exclusive otherwise; distinctness of the indices is not considered. -/
theorem claim_C2_amended :
    (∀ env d f u fl q img tr,
      StorageImage.with_usage env d f u fl q = (.ok img, tr) →
      img.inner.raw.sharing =
        (if q.length ≥ 2 then Sharing.Concurrent q else Sharing.Exclusive)) ∧
    (∀ env d f q img tr,
      StorageImage.new env d f q = (.ok img, tr) →
      img.inner.raw.sharing =
        (if q.length ≥ 2 then Sharing.Concurrent q else Sharing.Exclusive)) ∧
    (∀ env d f u fl q img tr,
      StorageImage.new_with_exportable_fd env d f u fl q = (.ok img, tr) →
      img.inner.raw.sharing =
        (if q.length ≥ 2 then Sharing.Concurrent q else Sharing.Exclusive)) := by
  refine ⟨?_, ?_, ?_⟩
  · intro env d f u fl q img tr h
    exact (with_usage_ok_fields env d f u fl q img tr h).2.2.2.1
  · intro env d f q img tr h
    unfold StorageImage.new at h
    dsimp only at h
    split at h
    · simp at h
    · exact (with_usage_ok_fields _ _ _ _ _ _ _ _ h).2.2.2.1
  · intro env d f u fl q img tr h
    exact (exportable_ok_fields env d f u fl q img tr h).2.2.2.1

/-- Claim C2 witness: a single-element queue-family index list yields
Exclusive sharing on the concrete pooled run. -/
theorem claim_C2_witness :
    imgW.inner.raw.sharing =
      (if ([0] : List Nat).length ≥ 2 then Sharing.Concurrent [0] else Sharing.Exclusive) :=
  claim_C2_amended.1 pooledEnv dimsW Format.R8G8B8A8_UNORM usageW ImageCreateFlags.empty [0]
    imgW trW (by decide)

/-- Claim C2 counterexample: the list [0, 0] holds two copies of one queue
family — only 1 distinct index, so the claim as frozen demands Exclusive —
yet construction yields Concurrent [0, 0], because the source tests the
list's length, not the number of distinct indices. -/
theorem claim_C2_counterexample :
    (runImage dupRun).map (fun i => i.inner.raw.sharing) = some (Sharing.Concurrent [0, 0]) ∧
    ([0, 0] : List Nat).dedup = [0] ∧
    Sharing.Concurrent [0, 0] ≠ Sharing.Exclusive := by
  decide

/-- Claim C5: for every successful default construction (new) the resulting
image's usage set is the union of transfer-src, transfer-dst, sampled,
storage and input-attachment with depth-stencil-attachment if the format's
aspects include depth or stencil and color-attachment otherwise — hence a
superset of the baseline plus the correct attachment bit for the format's
aspect class. -/
theorem claim_C5_theorem (env : Env) (d : ImageDimensions) (f : Format) (q : List Nat)
    (img : StorageImage) (tr : List Event)
    (h : StorageImage.new env d f q = (.ok img, tr)) :
    img.inner.raw.usage =
      ImageUsage.TRANSFER_SRC.union (ImageUsage.TRANSFER_DST.union (ImageUsage.SAMPLED.union
        (ImageUsage.STORAGE.union (ImageUsage.INPUT_ATTACHMENT.union
          (if f.aspects.intersects (ImageAspects.DEPTH.union ImageAspects.STENCIL) then
            ImageUsage.DEPTH_STENCIL_ATTACHMENT
          else ImageUsage.COLOR_ATTACHMENT))))) ∧
    img.inner.raw.usage.isSupersetOf
      (ImageUsage.TRANSFER_SRC.union (ImageUsage.TRANSFER_DST.union (ImageUsage.SAMPLED.union
        (ImageUsage.STORAGE.union ImageUsage.INPUT_ATTACHMENT)))) = true ∧
    (if f.aspects.intersects (ImageAspects.DEPTH.union ImageAspects.STENCIL) then
      img.inner.raw.usage.depth_stencil_attachment
    else img.inner.raw.usage.color_attachment) = true := by
  unfold StorageImage.new at h
  dsimp only at h
  split at h
  · simp at h
  · have hu := (with_usage_ok_fields _ _ _ _ _ _ _ _ h).1
    refine ⟨hu, ?_, ?_⟩
    · rw [hu]
      cases hds : f.aspects.intersects (ImageAspects.DEPTH.union ImageAspects.STENCIL) <;>
        simp [hds] <;> decide
    · rw [hu]
      cases hds : f.aspects.intersects (ImageAspects.DEPTH.union ImageAspects.STENCIL) <;>
        simp [hds] <;> decide

/-- Claim C5 witness: the concrete default run on the color format yields
exactly the baseline usage plus color-attachment. -/
theorem claim_C5_witness :
    imgN.inner.raw.usage =
      ImageUsage.TRANSFER_SRC.union (ImageUsage.TRANSFER_DST.union (ImageUsage.SAMPLED.union
        (ImageUsage.STORAGE.union (ImageUsage.INPUT_ATTACHMENT.union
          (if Format.R8G8B8A8_UNORM.aspects.intersects
              (ImageAspects.DEPTH.union ImageAspects.STENCIL) then
            ImageUsage.DEPTH_STENCIL_ATTACHMENT
          else ImageUsage.COLOR_ATTACHMENT))))) ∧
    imgN.inner.raw.usage.isSupersetOf
      (ImageUsage.TRANSFER_SRC.union (ImageUsage.TRANSFER_DST.union (ImageUsage.SAMPLED.union
        (ImageUsage.STORAGE.union ImageUsage.INPUT_ATTACHMENT)))) = true ∧
    (if Format.R8G8B8A8_UNORM.aspects.intersects
        (ImageAspects.DEPTH.union ImageAspects.STENCIL) then
      imgN.inner.raw.usage.depth_stencil_attachment
    else imgN.inner.raw.usage.color_attachment) = true :=
  claim_C5_theorem pooledEnv dimsW Format.R8G8B8A8_UNORM [0] imgN trN (by decide)

/-- Claim C8: whenever the usage requested from general_purpose_image_view
lacks every capability a default view requires (and the underlying image
construction itself succeeds), the call fails with the distinguishable
DirectImageViewCreationFailed error carrying the ImageMissingUsage
sub-kind — never a generic error. -/
theorem claim_C8_theorem (env : Env) (queue : Queue) (s0 s1 : Nat) (f : Format)
    (u : ImageUsage) (img : StorageImage) (tr : List Event)
    (h : StorageImage.with_usage env (ImageDimensions.Dim2d s0 s1 1) f u
      ImageCreateFlags.empty [queue.queue_family_index] = (.ok img, tr))
    (hu : (u.sampled || u.storage_bit || u.color_attachment || u.depth_stencil_attachment ||
      u.input_attachment) = false) :
    StorageImage.general_purpose_image_view env queue (s0, s1) f u =
      (.err (ImageError.DirectImageViewCreationFailed ImageViewCreationError.ImageMissingUsage),
        tr) := by
  have husage := (with_usage_ok_fields _ _ _ _ _ _ _ _ h).1
  unfold StorageImage.general_purpose_image_view
  dsimp only
  rw [h]
  dsimp only
  unfold ImageView.new_default
  dsimp only
  rw [husage, hu]
  simp

/-- Claim C8 witness: requesting a transfer-src-only view (the repository
test create_general_purpose_image_view_failed) fails with the
missing-usage error kind. -/
theorem claim_C8_witness :
    StorageImage.general_purpose_image_view pooledEnv ⟨3⟩ (32, 32) Format.R8G8B8A8_UNORM
      ImageUsage.TRANSFER_SRC =
      (.err (ImageError.DirectImageViewCreationFailed ImageViewCreationError.ImageMissingUsage),
        trV) :=
  claim_C8_theorem pooledEnv ⟨3⟩ 32 32 Format.R8G8B8A8_UNORM ImageUsage.TRANSFER_SRC imgV trV
    (by decide) (by decide)

/-- Claim C9: two StorageImage values are equal exactly when they reference
the same underlying raw image object (identity, i.e. the driver handle,
which uniquely names a live raw image object — the hypothesis), and equal
values hash identically; equality is not structural content equality. -/
theorem claim_C9_theorem (a b : StorageImage)
    (hid : a.inner.raw.handle = b.inner.raw.handle → a.inner = b.inner) :
    (StorageImage.beq a b = true ↔ a.inner.raw.handle = b.inner.raw.handle) ∧
    (StorageImage.beq a b = true → StorageImage.hashVal a = StorageImage.hashVal b) := by
  constructor
  · constructor
    · intro hbeq
      unfold StorageImage.beq StorageImage.inner_access ImageInner.beq Image.same_object at hbeq
      simp only [Bool.and_eq_true, beq_iff_eq] at hbeq
      exact hbeq.1.1.1.1
    · intro hh
      have hinner := hid hh
      unfold StorageImage.beq StorageImage.inner_access ImageInner.beq Image.same_object
      rw [hinner]
      simp
  · intro hbeq
    have hh : a.inner.raw.handle = b.inner.raw.handle := by
      unfold StorageImage.beq StorageImage.inner_access ImageInner.beq Image.same_object at hbeq
      simp only [Bool.and_eq_true, beq_iff_eq] at hbeq
      exact hbeq.1.1.1.1
    have hinner := hid hh
    unfold StorageImage.hashVal StorageImage.inner_access ImageInner.hashVal
    rw [hinner]

/-- Claim C9 witness: identity equality and hash agreement at the concrete
pooled image. -/
theorem claim_C9_witness :
    (StorageImage.beq imgW imgW = true ↔ imgW.inner.raw.handle = imgW.inner.raw.handle) ∧
    (StorageImage.beq imgW imgW = true →
      StorageImage.hashVal imgW = StorageImage.hashVal imgW) :=
  claim_C9_theorem imgW imgW (fun _ => rfl)

end Vulkano
